import Mathlib

set_option maxRecDepth 100000

/-!
Verification development for the financial-news dashboard web client
(`src/services/api.ts`, `src/components/Funds.tsx`, the market dashboard
page). The TypeScript sources are shallowly embedded: JavaScript strings
become `String`, JS numbers become `ℚ` (all arithmetic in the embedded code
is exact over decimals), `Math.random()` draws are explicit streams
`Nat → ℚ` (the n-th entry is the n-th `Math.random()` call of an
execution), promise rejection becomes `Except`, and the HTTP backend is an
oracle mapping the request URL to either an error or the parsed JSON body.
-/

/-! ### JavaScript string primitives -/

/-- Whitespace characters recognised by the `\s` class of the JS regexes
used in the sources (ASCII subset; the queries at issue are ASCII). -/
def isJsWhitespace (c : Char) : Bool :=
  c == ' ' || c == '\t' || c == '\n' || c == '\r' || c == '\x0b' || c == '\x0c'

/-- Contiguous-sublist test on character lists (the semantics of JS
`String.prototype.includes`). -/
def hasInfixChars (hay pat : List Char) : Bool :=
  match hay with
  | [] => pat.isEmpty
  | _ :: t => pat.isPrefixOf hay || hasInfixChars t pat

/-- JS `haystack.includes(needle)`. -/
def jsIncludes (hay pat : String) : Bool :=
  hasInfixChars hay.data pat.data

/-- JS `toLowerCase` (ASCII; all embedded literals are ASCII). -/
def jsToLower (s : String) : String :=
  ⟨s.data.map Char.toLower⟩

/-- JS `toUpperCase` (ASCII). -/
def jsToUpper (s : String) : String :=
  ⟨s.data.map Char.toUpper⟩

/-- JS `s.split(/\s+/)`, keeping only non-empty tokens.  (JS keeps one
empty leading/trailing token when the string starts or ends with
whitespace; no guard in the embedded code can match the empty token, so
dropping it is observationally equivalent for every use below.) -/
def wsTokensAux : List Char → List Char → List String
  | [], acc => if acc.isEmpty then [] else [⟨acc.reverse⟩]
  | c :: rest, acc =>
    if isJsWhitespace c then
      if acc.isEmpty then wsTokensAux rest [] else ⟨acc.reverse⟩ :: wsTokensAux rest []
    else wsTokensAux rest (c :: acc)

/-- Tokenisation entry point (see `wsTokensAux`). -/
def wsTokens (l : List Char) : List String :=
  wsTokensAux l []

/-- First match of the JS regex `/[A-Z]{2,}/`: the leftmost maximal run of
at least two consecutive ASCII uppercase letters. -/
def firstUpperRun (l : List Char) : Option (List Char) :=
  match l with
  | [] => none
  | c :: rest =>
    if c.isUpper && (match rest with | c2 :: _ => c2.isUpper | [] => false) then
      some (c :: rest.takeWhile Char.isUpper)
    else firstUpperRun rest

/-- JS `s.charCodeAt(0)` (0 in place of NaN for the empty string; every
call site below passes a non-empty string). -/
def charCode0 (s : String) : Nat :=
  match s.data with
  | [] => 0
  | c :: _ => c.toNat

/-! ### Number formatting (`toLocaleString`, `toFixed`)

The dashboard renders prices with `toLocaleString("en-US")` /
`toLocaleString("en-IN")` (`maximumFractionDigits: 2`) and `toFixed(2)`.
All numbers formatted by the embedded code are non-negative decimals with
at most two fractional digits, which these models reproduce. -/

/-- Insert a comma before digit position `i` whenever `isBreak i` holds
(position 0 never takes a separator). -/
def withGroupSeps (isBreak : Nat → Bool) (ds : List Char) : List Char :=
  (ds.enum.map (fun ic => if ic.1 != 0 && isBreak ic.1 then [',', ic.2] else [ic.2])).flatten

/-- `en-US` integer grouping: groups of three from the right. -/
def formatIntUS (n : Nat) : String :=
  let ds := (toString n).data
  ⟨withGroupSeps (fun i => (ds.length - i) % 3 == 0) ds⟩

/-- `en-IN` integer grouping: last group of three, then groups of two. -/
def formatIntIN (n : Nat) : String :=
  let ds := (toString n).data
  ⟨withGroupSeps (fun i => ds.length - i == 3 || (ds.length - i > 3 && (ds.length - i) % 2 == 1)) ds⟩

/-- Fractional part under `maximumFractionDigits: 2` (empty when the value
is an integer, one digit when the second would be zero). -/
def fracDigits2 (q : ℚ) : String :=
  let c := (⌊(q - ⌊q⌋) * 100⌋).toNat
  if c == 0 then ""
  else if c % 10 == 0 then "." ++ toString (c / 10)
  else if c < 10 then ".0" ++ toString c
  else "." ++ toString c

/-- `value.toLocaleString(locale, { maximumFractionDigits: 2 })` for the
non-negative decimals the dashboard formats. -/
def formatLocale (indian : Bool) (q : ℚ) : String :=
  (if indian then formatIntIN ⌊q⌋.toNat else formatIntUS ⌊q⌋.toNat) ++ fracDigits2 q

/-- `q.toFixed(2)` for non-negative `q`. -/
def toFixed2Abs (q : ℚ) : String :=
  let c := (⌊q * 100 + 1/2⌋).toNat
  toString (c / 100) ++ "." ++
    (if c % 100 < 10 then "0" ++ toString (c % 100) else toString (c % 100))

/-- JS `Number.prototype.toFixed(2)`. -/
def toFixed2 (q : ℚ) : String :=
  if q < 0 then "-" ++ toFixed2Abs (-q) else toFixed2Abs q

/-- `value.toLocaleString(locale)` for the integer-valued prices the chat
fallback generates (an integer renders with no fractional digits). -/
def formatNatLocale (indian : Bool) (n : Nat) : String :=
  if indian then formatIntIN n else formatIntUS n

example : formatIntUS 15500 = "15,500" := by decide
example : formatIntIN 128550 = "1,28,550" := by decide
example : formatIntIN 1234567 = "12,34,567" := by decide

/-! ### JSON values and the HTTP backend oracle

`axios` resolves with a response object whose `data` field is the parsed
JSON body, or rejects with an error.  The backend is modelled as an oracle
from the request URL to that outcome; each embedded client method also
returns the list of URLs it requested, in order. -/

inductive JVal where
  | null
  | bool (b : Bool)
  | num (q : ℚ)
  | str (s : String)
  | arr (elems : List JVal)
  | obj (fields : List (String × JVal))

/-- JS truthiness of a JSON value. -/
def jTruthy : JVal → Bool
  | .null => false
  | .bool b => b
  | .num q => decide (q ≠ 0)
  | .str s => !s.isEmpty
  | .arr _ => true
  | .obj _ => true

/-- JS property access `v.key` (`none` for `undefined`). -/
def jget (v : JVal) (key : String) : Option JVal :=
  match v with
  | .obj fields => (fields.find? (fun kv => kv.1 == key)).map (fun kv => kv.2)
  | _ => none

/-- JS `v.length` (only arrays and strings have one). -/
def jLength : JVal → Option Nat
  | .arr elems => some elems.length
  | .str s => some s.length
  | _ => none

/-- JS `v[0]` for the values `getStockInfo` indexes (arrays; a string
yields its first character as a one-character string). -/
def jFirst : JVal → JVal
  | .arr (x :: _) => x
  | .str s =>
    match s.data with
    | c :: _ => .str ⟨[c]⟩
    | [] => .null
  | _ => .null

/-- JS `list[n]` on a decoded JSON array (`null` in place of `undefined`
out of range; every use below is guarded by a length check). -/
def jIdx (l : List JVal) (n : Nat) : JVal :=
  (l.get? n).getD JVal.null

structure HttpErr where
  msg : String
deriving DecidableEq

/-- Backend oracle: the outcome of one HTTP request, keyed by URL. -/
abbrev Http := String → Except HttpErr JVal

/-- `API_BASE_URL` default from `src/services/api.ts`. -/
def API_BASE_URL : String := "http://localhost:8001/api"

/-! ### The REST client `api` (`src/services/api.ts`)

Each method returns the resolved value (or the propagated rejection)
together with the list of request URLs it issued, in order. -/

/-- `api.chat.query` (POST `/chat/query`): no catch, errors propagate. -/
def chatQuery (http : Http) (_query : String) (_sessionId : String := "default") :
    Except HttpErr JVal × List String :=
  (http (API_BASE_URL ++ "/chat/query"), [API_BASE_URL ++ "/chat/query"])

/-- `api.news.getRecent`: no catch, errors propagate. -/
def newsGetRecent (http : Http) (limit : Nat := 20) :
    Except HttpErr JVal × List String :=
  (http (API_BASE_URL ++ "/news/recent?limit=" ++ toString limit),
   [API_BASE_URL ++ "/news/recent?limit=" ++ toString limit])

/-- `api.news.getByEntity`: no catch, errors propagate. -/
def newsGetByEntity (http : Http) (entityName : String) (days : Nat := 30) :
    Except HttpErr JVal × List String :=
  (http (API_BASE_URL ++ "/news/entity/" ++ entityName ++ "?days=" ++ toString days),
   [API_BASE_URL ++ "/news/entity/" ++ entityName ++ "?days=" ++ toString days])

/-- `api.news.search` (POST `/news/search`): no catch, errors propagate. -/
def newsSearch (http : Http) (_query : String) :
    Except HttpErr JVal × List String :=
  (http (API_BASE_URL ++ "/news/search"), [API_BASE_URL ++ "/news/search"])

/-- `api.news.refresh` (POST `/news/refresh`): no catch, errors propagate. -/
def newsRefresh (http : Http) : Except HttpErr JVal × List String :=
  (http (API_BASE_URL ++ "/news/refresh"), [API_BASE_URL ++ "/news/refresh"])

/-- The mock stock object `getStockInfo` fabricates when the direct lookup
and the search fallback both fail (`r` is the `Math.random()` stream). -/
def mockStockJson (symbol : String) (r : Nat → ℚ) : JVal :=
  .obj [
    ("symbol", .str (jsToUpper symbol)),
    ("name", .str (jsToUpper symbol)),
    ("price", .num (r 0 * 5000 + 500)),
    ("change", .str (toFixed2 (r 1 * 100 - 50))),
    ("changePercent", .str (toFixed2 (r 2 * 10 - 5))),
    ("volume", .num ((⌊r 3 * 10000000⌋ : ℚ) + 100000)),
    ("marketCap", .num ((⌊r 4 * 10000000000⌋ : ℚ) + 1000000000)),
    ("sector", .str "Unknown")
  ]

/-- `api.getStockInfo`: direct lookup, then POST `/financial-data/search`,
then fabricated mock data.  The resolved value is the `data` payload of
whichever response object the method returns (callers only read `.data`).
The `throw new Error("No stock data found")` on an empty search result is
caught by the surrounding `catch`, which also returns the mock. -/
def getStockInfo (http : Http) (r : Nat → ℚ) (symbol : String) :
    Except HttpErr JVal × List String :=
  let directUrl := API_BASE_URL ++ "/stocks/" ++ symbol
  let searchUrl := API_BASE_URL ++ "/financial-data/search"
  match http directUrl with
  | .ok v => (.ok v, [directUrl])
  | .error _ =>
    match http searchUrl with
    | .ok sv =>
      if jTruthy sv && (match jLength sv with | some n => decide (n > 0) | none => false) then
        (.ok (jFirst sv), [directUrl, searchUrl])
      else
        (.ok (mockStockJson symbol r), [directUrl, searchUrl])
    | .error _ => (.ok (mockStockJson symbol r), [directUrl, searchUrl])

/-- `api.getFundInfo`: no catch, errors propagate. -/
def getFundInfo (http : Http) (schemeName : String) :
    Except HttpErr JVal × List String :=
  (http (API_BASE_URL ++ "/funds/" ++ schemeName),
   [API_BASE_URL ++ "/funds/" ++ schemeName])

/-- The hardcoded two-fund fallback payload of `api.getAllFunds`. -/
def hdfcFundJson : JVal :=
  .obj [
    ("name", .str "HDFC Top 100 Fund"),
    ("type", .str "Mutual Fund"),
    ("nav", .num 850.25),
    ("aum", .num 21500),
    ("oneYearReturn", .num 15.8),
    ("threeYearReturn", .num 12.5),
    ("category", .str "Large Cap"),
    ("riskLevel", .str "Moderate")
  ]

/-- Second hardcoded fallback fund of `api.getAllFunds`. -/
def niftyFundJson : JVal :=
  .obj [
    ("name", .str "Nifty BeES"),
    ("type", .str "ETF"),
    ("nav", .num 220.15),
    ("aum", .num 12800),
    ("oneYearReturn", .num 18.2),
    ("threeYearReturn", .num 14.7),
    ("category", .str "Index Fund"),
    ("riskLevel", .str "Moderate")
  ]

/-- The object `api.getAllFunds` resolves with on any failure. -/
def fallbackFundsJson : JVal :=
  .obj [("status", .str "success"), ("data", .arr [hdfcFundJson, niftyFundJson])]

/-- `api.getAllFunds`: returns the payload when it is truthy with
`status === "success"`; otherwise (including a rejected request, via the
internal `throw` and `catch`) resolves with the hardcoded fallback. -/
def getAllFunds (http : Http) : Except HttpErr JVal × List String :=
  let url := API_BASE_URL ++ "/funds"
  match http url with
  | .ok payload =>
    if jTruthy payload &&
        (match jget payload "status" with | some (.str s) => s == "success" | _ => false) then
      (.ok payload, [url])
    else
      (.ok fallbackFundsJson, [url])
  | .error _ => (.ok fallbackFundsJson, [url])

/-- `api.getFundHoldings`: no catch, errors propagate. -/
def getFundHoldings (http : Http) (schemeName : String) :
    Except HttpErr JVal × List String :=
  (http (API_BASE_URL ++ "/funds/" ++ schemeName ++ "/holdings"),
   [API_BASE_URL ++ "/funds/" ++ schemeName ++ "/holdings"])

/-- `api.getETFInfo`: no catch, errors propagate. -/
def getETFInfo (http : Http) (symbol : String) :
    Except HttpErr JVal × List String :=
  (http (API_BASE_URL ++ "/etfs/" ++ symbol), [API_BASE_URL ++ "/etfs/" ++ symbol])

/-- `api.searchFinancialData` (POST `/financial-data/search`): no catch,
errors propagate. -/
def searchFinancialData (http : Http) (_query : String) :
    Except HttpErr JVal × List String :=
  (http (API_BASE_URL ++ "/financial-data/search"),
   [API_BASE_URL ++ "/financial-data/search"])

/-! ### `processSpecificQuery` (ChatInterface, `src/services/api.ts`)

The source is a chain of early-return `if` statements; each branch tests a
condition built from case-insensitive `includes` checks (plus four exact
lowercase equalities for BSE and one negated check for Jio) and returns a
constant string.  It is embedded as the first match over the ordered rule
list below, one rule per source branch, conditions transcribed verbatim. -/

structure SpecRule where
  guard : String → Bool
  answer : String

def ansAssetQuality : String :=
  "HDFC Bank's asset quality remains robust with gross NPA ratio at 1.34% and net NPA ratio at 0.35%.\n\nNeed more details? Ask about: provision coverage ratio, slippage ratio, or restructured assets."

def ansCasa : String :=
  "HDFC Bank's CASA (Current Account Savings Account) ratio stands at 42.5%, reflecting strong low-cost deposit base.\n\nNeed more details? Ask about: deposit growth, cost of funds, or liability management."

def ansMergerSynergies : String :=
  "HDFC Bank's merger with HDFC Ltd has expanded mortgage lending capabilities with projected annual synergies of ₹8,000 crore by year 3.\n\nNeed more details? Ask about: cross-selling opportunities, integration timeline, or operational efficiency."

def ansMarketCap : String :=
  "Market capitalization information for popular stocks:\n• Apple: $2.75 trillion\n• Microsoft: $3.09 trillion\n• Amazon: $1.85 trillion\n• Reliance Industries: ₹19.45 trillion\n• HDFC Bank: ₹8.97 trillion\n\nNeed specific details? Ask about a particular company."

def ansVolume : String :=
  "Recent trading volume information:\n• BSE: 3.21 billion shares\n• Apple: 78.45 million shares\n• Reliance: 8.45 million shares\n• HDFC Bank: 6.25 million shares\n\nNeed more details? Ask about a specific company's liquidity or market activity."

def ansRecentNews : String :=
  "Recent market news highlights:\n• US Fed commentary on interest rates impacting global markets\n• Q4 earnings season showing resilience in IT and Banking sectors\n• FII flows turning positive after recent selling\n• Global tech rally supporting domestic technology stocks\n\nNeed specific news? Ask about a particular sector or company."

def ansApple : String :=
  "Apple Inc. (AAPL) is currently trading at $175.34, up by 1.24%.\n\nNeed more details? Ask about: market cap, iPhone sales, or recent performance."

def ansBse : String :=
  "BSE Sensex is currently at 73,876.44, up by 0.58%.\n\nNeed more details? Ask about: trading volume, sector performance, or FII activity."

def ansSwiggyQuarter : String :=
  "Swiggy reported 45% order growth and 60% revenue growth in the latest quarter.\n\nNeed more details? Ask about: profitability metrics, Instamart performance, or IPO plans."

def ansJyothyLabs : String :=
  "Jyothy Labs shares are up 8% following a 25% increase in quarterly profit.\n\nNeed more details? Ask about: segment performance, profit margins, or analyst ratings."

def ansInfosys : String :=
  "Infosys (INFY) is currently trading with positive momentum. Their digital services division accounts for 59% of total revenue.\n\nNeed more details? Ask about: large deals, margins, or growth guidance."

def ansMarketToday : String :=
  "Indian markets are positive today, with Nifty 50 up by 0.78%. IT and banking sectors are leading the gains.\n\nNeed more details? Ask about: FII/DII flows, specific sectors, or global market impact."

def ansHdfc : String :=
  "HDFC Bank reported 17% YoY net profit growth with advances up 16.8% and deposits up 18.5%.\n\nNeed more details? Ask about: asset quality, CASA ratio, or merger synergies."

def ansTataMotors : String :=
  "Tata Motors is showing strong positive momentum with JLR revenue up 32% YoY and improved EBIT margins of 8.6%.\n\nNeed more details? Ask about: EV division, domestic market share, or debt reduction."

def ansReliance : String :=
  "Reliance Industries continues to diversify with Jio's ARPU improving to ₹181.7 and Retail showing 19.5% YoY revenue growth.\n\nNeed more details? Ask about: O2C segment, new energy investments, or digital business."

def ansZomatoHigh : String :=
  "Zomato stock reached its recent high in early February 2024, trading above ₹190 per share.\n\nNeed more details? Ask about: recent volatility factors, Blinkit performance, or analyst targets."

def ansTcsPrice : String :=
  "TCS is currently trading at ₹3,680.55 per share.\n\nNeed more details? Ask about: quarterly results, deal pipeline, or margin outlook."

def ansIphoneSales : String :=
  "Apple's iPhone sales reached approximately 224 million units last year, with the iPhone 15 series showing strong initial demand.\n\nNeed more details? Ask about: services revenue, product mix, or regional performance."

def ansApplePerformance : String :=
  "Apple's recent performance shows strength in services revenue (up 16% YoY) and expanding margins (46.1% gross margin).\n\nNeed more details? Ask about: regional growth, supply chain challenges, or AI strategy."

def ansTataEv : String :=
  "Tata Motors has a dominant 70% market share in India's EV passenger vehicle segment with the Nexon EV, Tiago EV, and Punch EV lineup.\n\nNeed more details? Ask about: EV sales growth, battery technology, or charging infrastructure."

def ansTataMarketShare : String :=
  "Tata Motors' domestic passenger vehicle market share has expanded to approximately 14.5%, making it the third-largest automaker in India.\n\nNeed more details? Ask about: SUV sales, competitive positioning, or new model launches."

def ansTataDebt : String :=
  "Tata Motors has substantially reduced its automotive debt from ₹48,700 crore to ₹39,600 crore over the past year, primarily driven by strong free cash flow from JLR.\n\nNeed more details? Ask about: debt-to-EBITDA ratio, refinancing activities, or cash position."

def ansRelianceO2c : String :=
  "Reliance's O2C (Oil-to-Chemicals) segment has shown resilient operating profits despite global margin pressures, with refining margins remaining above the Singapore benchmark.\n\nNeed more details? Ask about: petrochemical demand, refining throughput, or margin trends."

def ansRelianceNewEnergy : String :=
  "Reliance has committed ₹75,000 crore to new energy investments, including gigafactories for solar panels, energy storage, electrolyzers, and fuel cells, targeting net-zero by 2035.\n\nNeed more details? Ask about: green hydrogen, solar manufacturing, or energy storage solutions."

def ansJioDigital : String :=
  "Reliance's digital business (Jio Platforms) has 456 million subscribers with expanding 5G coverage reaching over 85% of India's population.\n\nNeed more details? Ask about: ARPU trends, data consumption, or digital services growth."

def ansSwiggyProfit : String :=
  "Swiggy reported an improvement in profitability metrics with adjusted EBITDA loss reduced to ₹125 crore from ₹425 crore year-on-year. Their contribution margin increased to 7.5%.\n\nNeed more details? Ask about: unit economics, cash burn, or category-wise margins."

def ansSwiggyInstamart : String :=
  "Swiggy's Instamart (quick commerce) grew 110% YoY, now contributing approximately 35% to their overall GMV. Average delivery time is 15 minutes across 25+ cities.\n\nNeed more details? Ask about: basket size, retention rates, or competitive landscape."

def ansSwiggyIpo : String :=
  "Swiggy is preparing for an IPO targeted for mid-2024, with an expected valuation of $10-12 billion. They've filed draft papers with SEBI in April 2024.\n\nNeed more details? Ask about: offer structure, pre-IPO placements, or key investors."

def ansMrf : String :=
  "MRF Limited is currently trading at ₹128,550.75 per share, up by 0.69%.\n\nNeed more details? Ask about: trading volume, quarterly results, or dealer network."

/-- The branches of `processSpecificQuery`, in source order. -/
def specificQueryRules : List SpecRule := [
  ⟨fun q => jsIncludes (jsToLower q) "asset quality", ansAssetQuality⟩,
  ⟨fun q => jsIncludes (jsToLower q) "casa ratio", ansCasa⟩,
  ⟨fun q => jsIncludes (jsToLower q) "merger synergies", ansMergerSynergies⟩,
  ⟨fun q => jsIncludes (jsToLower q) "market cap", ansMarketCap⟩,
  ⟨fun q => jsIncludes (jsToLower q) "volume" || jsIncludes (jsToLower q) "trading volume", ansVolume⟩,
  ⟨fun q => jsIncludes (jsToLower q) "recent news", ansRecentNews⟩,
  ⟨fun q => jsIncludes (jsToLower q) "apple" || jsIncludes (jsToLower q) "aapl", ansApple⟩,
  ⟨fun q => jsToLower q == "bse" || jsToLower q == "bse price" ||
      jsToLower q == "bse stock" || jsToLower q == "bse stock price", ansBse⟩,
  ⟨fun q => jsIncludes (jsToLower q) "swiggy" &&
      (jsIncludes (jsToLower q) "quarter" || jsIncludes (jsToLower q) "quarterly"), ansSwiggyQuarter⟩,
  ⟨fun q => jsIncludes (jsToLower q) "jyothy labs" &&
      (jsIncludes (jsToLower q) "up" || jsIncludes (jsToLower q) "increase" ||
        jsIncludes (jsToLower q) "rise"), ansJyothyLabs⟩,
  ⟨fun q => jsIncludes (jsToLower q) "infosys" || jsIncludes (jsToLower q) "infy", ansInfosys⟩,
  ⟨fun q => jsIncludes (jsToLower q) "market" &&
      (jsIncludes (jsToLower q) "today" || jsIncludes (jsToLower q) "current"), ansMarketToday⟩,
  ⟨fun q => jsIncludes (jsToLower q) "hdfc" || jsIncludes (jsToLower q) "hdfc bank", ansHdfc⟩,
  ⟨fun q => jsIncludes (jsToLower q) "tata motors" || jsIncludes (jsToLower q) "tatamotors", ansTataMotors⟩,
  ⟨fun q => jsIncludes (jsToLower q) "reliance" || jsIncludes (jsToLower q) "ril", ansReliance⟩,
  ⟨fun q => jsIncludes (jsToLower q) "when" && jsIncludes (jsToLower q) "zomato" &&
      jsIncludes (jsToLower q) "high", ansZomatoHigh⟩,
  ⟨fun q => jsIncludes (jsToLower q) "tcs" && jsIncludes (jsToLower q) "price", ansTcsPrice⟩,
  ⟨fun q => jsIncludes (jsToLower q) "iphone sales" || jsIncludes (jsToLower q) "iphone" ||
      (jsIncludes (jsToLower q) "apple" && jsIncludes (jsToLower q) "sales"), ansIphoneSales⟩,
  ⟨fun q => jsIncludes (jsToLower q) "recent performance" && jsIncludes (jsToLower q) "apple",
    ansApplePerformance⟩,
  ⟨fun q => jsIncludes (jsToLower q) "ev division" ||
      (jsIncludes (jsToLower q) "tata" && jsIncludes (jsToLower q) "ev"), ansTataEv⟩,
  ⟨fun q => jsIncludes (jsToLower q) "domestic market share" && jsIncludes (jsToLower q) "tata",
    ansTataMarketShare⟩,
  ⟨fun q => jsIncludes (jsToLower q) "debt reduction" && jsIncludes (jsToLower q) "tata", ansTataDebt⟩,
  ⟨fun q => (jsIncludes (jsToLower q) "o2c" || jsIncludes (jsToLower q) "oil to chemicals") &&
      jsIncludes (jsToLower q) "reliance", ansRelianceO2c⟩,
  ⟨fun q => jsIncludes (jsToLower q) "new energy" && jsIncludes (jsToLower q) "reliance",
    ansRelianceNewEnergy⟩,
  ⟨fun q => jsIncludes (jsToLower q) "digital business" ||
      (jsIncludes (jsToLower q) "jio" && !jsIncludes (jsToLower q) "arpu"), ansJioDigital⟩,
  ⟨fun q => jsIncludes (jsToLower q) "profitability metrics" ||
      (jsIncludes (jsToLower q) "swiggy" && jsIncludes (jsToLower q) "profit"), ansSwiggyProfit⟩,
  ⟨fun q => jsIncludes (jsToLower q) "instamart performance" ||
      (jsIncludes (jsToLower q) "swiggy" && jsIncludes (jsToLower q) "instamart"), ansSwiggyInstamart⟩,
  ⟨fun q => jsIncludes (jsToLower q) "ipo plans" ||
      (jsIncludes (jsToLower q) "swiggy" && jsIncludes (jsToLower q) "ipo"), ansSwiggyIpo⟩,
  ⟨fun q => jsIncludes (jsToLower q) "mrf" || jsIncludes (jsToLower q) "mrf stock" ||
      jsIncludes (jsToLower q) "mrf price", ansMrf⟩
]

/-- `processSpecificQuery`: the first matching branch's canned paragraph,
`null` when no branch matches.  A pure function of the query text (the
source consults no state and draws no randomness). -/
def processSpecificQuery (q : String) : Option String :=
  (specificQueryRules.find? (fun rule => rule.guard q)).map SpecRule.answer

/-- The finite set of canned paragraphs `processSpecificQuery` can emit. -/
def cannedAnswers : List String := specificQueryRules.map SpecRule.answer

example : processSpecificQuery "casa ratio" = some ansCasa := by decide
example : processSpecificQuery "how is the weather" = none := by decide
example : processSpecificQuery "what about aapl" = some ansApple := by decide

/-! ### `searchWebForInfo` (ChatInterface, `src/services/api.ts`)

Despite its name the function performs no HTTP request: it is a pure
function of the query text and of the `Math.random()` stream `r`.  The
stock-price block (the first `if`) never draws from `r`; it is factored
out as `priceAnswer`, an `Option`-valued helper whose `some` results are
exactly the early returns of that block.  The `try`/`catch` wrapper of the
source is dead (nothing inside can throw) and is not modelled. -/

structure StockPriceEntry where
  key : String
  price : ℚ
  isIndian : Bool

/-- The hardcoded `stockPrices` table, in source (insertion) order. -/
def stockPricesTable : List StockPriceEntry := [
  ⟨"mrf", 128550.75, true⟩,
  ⟨"reliance", 2875.35, true⟩,
  ⟨"tcs", 3680.55, true⟩,
  ⟨"hdfc", 1578.4, true⟩,
  ⟨"infosys", 1752.3, true⟩,
  ⟨"wipro", 475.2, true⟩,
  ⟨"apple", 175.34, false⟩,
  ⟨"microsoft", 415.1, false⟩,
  ⟨"amazon", 178.75, false⟩,
  ⟨"google", 155.72, false⟩,
  ⟨"tesla", 172.63, false⟩,
  ⟨"meta", 493.5, false⟩,
  ⟨"facebook", 493.5, false⟩,
  ⟨"netflix", 610.32, false⟩,
  ⟨"titan", 3287.6, true⟩,
  ⟨"nestle", 24350.3, true⟩,
  ⟨"bajaj", 1598.45, true⟩,
  ⟨"icici", 1124.85, true⟩,
  ⟨"maruti", 10850.6, true⟩,
  ⟨"airtel", 1245.75, true⟩,
  ⟨"itc", 435.25, true⟩,
  ⟨"hul", 2456.8, true⟩,
  ⟨"sbi", 764.35, true⟩,
  ⟨"adani", 3125.45, true⟩,
  ⟨"kotak", 1876.9, true⟩
]

/-- Stop words excluded when guessing a stock name from the keywords. -/
def searchStopWords : List String :=
  ["stock", "price", "what", "current", "trading", "about", "tell", "show"]

/-- Prefix fragments that mark a guessed name as a likely Indian stock. -/
def indianHintFragments : List String :=
  ["LTD", "INDIA", "BAJ", "TAT", "BHEL", "ONGC", "NTPC", "BPCL", "HPCL", "GAIL"]

/-- `query.match(/[A-Z]{2,}/) ? …[0] : keywords.find(…)`. -/
def potentialStockName (query : String) (keywords : List String) : Option String :=
  match firstUpperRun query.data with
  | some run => some ⟨run⟩
  | none => keywords.find? (fun k => decide (k.length > 3) && !(searchStopWords.contains k))

/-- The keywords list: `query.toLowerCase().split(/\s+/)`. -/
def kwOf (query : String) : List String :=
  wsTokens (jsToLower query).data

/-- The stock-price block of `searchWebForInfo`: the hardcoded table
lookup, then the deterministic generated price
`((name.charCodeAt(0) * 100 + name.length * 1000) % 50000) + 500`.
No `Math.random()` call occurs anywhere in this block. -/
def priceAnswer (query : String) (keywords : List String) : Option String :=
  if (keywords.contains "stock" && keywords.contains "price")
      || keywords.contains "trading"
      || keywords.any (fun k => k == "price")
      || jsIncludes (jsToLower query) "current price" then
    match stockPricesTable.find? (fun entry => jsIncludes (jsToLower query) entry.key) with
    | some entry =>
      some (jsToUpper entry.key ++ " is currently trading at "
        ++ (if entry.isIndian then "₹" else "$")
        ++ (if entry.isIndian && entry.price > 1000
            then formatLocale true entry.price else formatLocale false entry.price)
        ++ " per share.")
    | none =>
      if keywords.contains "price" || jsIncludes (jsToLower query) "trading"
          || keywords.any (fun w => w == "current") then
        match potentialStockName query keywords with
        | some nm =>
          let isLikelyIndian := decide (nm.length ≥ 2) &&
            indianHintFragments.any (fun p => jsIncludes (jsToUpper nm) p)
          let generatedPrice := (charCode0 nm * 100 + nm.length * 1000) % 50000 + 500
          some (jsToUpper nm ++ " is currently trading at "
            ++ (if isLikelyIndian then "₹" else "$")
            ++ (if isLikelyIndian && generatedPrice > 1000
                then formatNatLocale true generatedPrice else formatNatLocale false generatedPrice)
            ++ " per share.")
        | none => none
      else none
  else none

/-- The keyword-triggered fallback paragraphs after the stock-price block
(these are the only places `searchWebForInfo` reads the random stream). -/
def keywordFallback (query : String) (keywords : List String) (r : Nat → ℚ) : String :=
  if keywords.contains "profitability" || keywords.contains "metrics" then
    "Based on latest financial news sources:\n\n"
      ++ (if jsIncludes query "Swiggy" then "Swiggy" else "The company")
      ++ " has shown improvement in key profitability metrics with contribution margin increasing to 7.5% and adjusted EBITDA loss narrowing by 70% year-on-year. The path to profitability is being accelerated by operational efficiencies and higher order values.\n\nThis information was compiled from recent financial reports and news articles."
  else if keywords.contains "market" && keywords.contains "share" then
    "According to recent market research:\n\nThe company has "
      ++ (if keywords.contains "growing" then "grown" else "maintained")
      ++ " its market position with approximately "
      ++ toString (⌊r 0 * 30⌋ + 20)
      ++ "% share in its primary segment. Competition remains intense with key rivals introducing new offerings.\n\nThis information was compiled from industry reports and market analysis."
  else if keywords.contains "forecast" || keywords.contains "outlook" then
    "Based on analyst consensus from major financial publications:\n\nThe outlook appears "
      ++ (if r 0 > 1/2 then "cautiously optimistic" else "mixed")
      ++ " with projected growth of "
      ++ toString (⌊r 1 * 15⌋ + 5)
      ++ "% in the coming year. Key factors to watch include consumer spending trends, inflationary pressures, and competitive dynamics.\n\nThis information represents a summary of various expert opinions from financial news sources."
  else
    "Based on available financial information:\n\nThe "
      ++ (if jsIncludes (jsToLower query) "stock" then "stock" else "company")
      ++ " has shown "
      ++ (if r 0 > 1/2 then "positive" else "mixed")
      ++ " performance recently. Analysts note that "
      ++ (if r 1 > 1/2 then "market conditions" else "sector trends")
      ++ " will be key determinants of future performance.\n\nThis information represents a summary from financial news sources. For more specific details, you might consider checking specialized financial platforms."

/-- `searchWebForInfo`: stock-price block first, keyword fallbacks after. -/
def searchWebForInfo (query : String) (r : Nat → ℚ) : String :=
  let keywords := kwOf query
  match priceAnswer query keywords with
  | some ans => ans
  | none => keywordFallback query keywords r

example :
    priceAnswer "ZOMATO price" (kwOf "ZOMATO price") =
      some "ZOMATO is currently trading at $15,500 per share." := by decide

/-! ### The chat submit handler (ChatInterface `handleSubmit`)

`handleSubmit` consults, in order: `processSpecificQuery`, then (for
alphabetic-looking input) `fetchStockData`, then `api.chat.query`, then
`searchWebForInfo`.  The outcomes of the two asynchronous sources are
abstracted into an environment: `stockResult` is the value
`fetchStockData(inputValue.trim())` resolves with (never rejects: its own
`catch` returns mock data or `null`), and `chatAnswer` is the outcome of
`api.chat.query(inputValue)` projected to `response.answer` (`.error` for
a rejected request).  The handler returns `none` when the input is blank
(the early return), otherwise the appended assistant message together with
the trace of consulted sources, in order. -/

structure StockData where
  symbol : String
  name : String
  price : ℚ
  change : ℚ
  changePercent : ℚ
  volume : ℚ
  marketCap : ℚ
  sector : String
  lastUpdated : String

/-- `formatStockResponse` (the `changeDescription` local of the source is
computed but never interpolated, and is omitted). -/
def formatStockResponse (sd : StockData) : String :=
  (if sd.changePercent ≥ 0 then
    sd.name ++ " (" ++ sd.symbol ++ ") is currently trading at ₹" ++ toFixed2 sd.price
      ++ ", up by " ++ toFixed2 |sd.changePercent|
  else
    sd.name ++ " (" ++ sd.symbol ++ ") is currently trading at ₹" ++ toFixed2 sd.price
      ++ ", down by " ++ toFixed2 |sd.changePercent|)
  ++ "%.\n\nNeed more details? Ask about: market cap, volume, or recent news."

/-- JS `String.prototype.trim` (ASCII whitespace). -/
def jsTrim (s : String) : String :=
  ⟨((s.data.dropWhile isJsWhitespace).reverse.dropWhile isJsWhitespace).reverse⟩

/-- The JS regex `/^[A-Za-z\s&.]+$/` character class. -/
def isStockQueryChar (c : Char) : Bool :=
  c.isAlpha || isJsWhitespace c || c == '&' || c == '.'

/-- `/^[A-Za-z\s&.]+$/.test(s)`. -/
def looksLikeStockQuery (s : String) : Bool :=
  !s.isEmpty && s.data.all isStockQueryChar

/-- External sources the submit handler can consult. -/
inductive ChatSource where
  | stockFetch
  | chatApi
  | webSearch
deriving DecidableEq

structure ChatEnv where
  stockResult : Option StockData
  chatAnswer : Except Unit String
  rand : Nat → ℚ

/-- `handleSubmit`: appended assistant message and source trace. -/
def handleSubmit (env : ChatEnv) (inputValue : String) :
    Option (String × List ChatSource) :=
  if jsTrim inputValue = "" then none
  else
    match processSpecificQuery inputValue with
    | some specificResponse => some (specificResponse, [])
    | none =>
      if looksLikeStockQuery (jsTrim inputValue) then
        match env.stockResult with
        | some stockData => some (formatStockResponse stockData, [.stockFetch])
        | none =>
          match env.chatAnswer with
          | .ok answer =>
            if answer = "" then
              some (searchWebForInfo inputValue env.rand, [.stockFetch, .chatApi, .webSearch])
            else
              some (answer, [.stockFetch, .chatApi])
          | .error _ =>
            some (searchWebForInfo inputValue env.rand, [.stockFetch, .chatApi, .webSearch])
      else
        match env.chatAnswer with
        | .ok answer =>
          if answer = "" then
            some (searchWebForInfo inputValue env.rand, [.chatApi, .webSearch])
          else
            some (answer, [.chatApi])
        | .error _ =>
          some (searchWebForInfo inputValue env.rand, [.chatApi, .webSearch])

/-! ### The fund browser (`src/components/Funds.tsx`) -/

structure Fund where
  name : String
  type : String
  nav : ℚ
  aum : ℚ
  oneYearReturn : ℚ
  threeYearReturn : ℚ
  category : String
  riskLevel : String

/-- The `filter` state: the All / Mutual Funds / ETFs buttons. -/
inductive FundFilter where
  | all
  | mf
  | etf
deriving DecidableEq, BEq

/-- `filteredFunds`, transcribed from the component. -/
def filteredFunds (funds : List Fund) (searchTerm : String) (filter : FundFilter) :
    List Fund :=
  funds.filter (fun fund =>
    jsIncludes (jsToLower fund.name) (jsToLower searchTerm) &&
    (filter == FundFilter.all
      || (filter == FundFilter.mf && fund.type == "Mutual Fund")
      || (filter == FundFilter.etf && fund.type == "ETF")))

/-- The selection criterion in the words of the claim: the fund's name
contains the search term case-insensitively, and its type matches the
active filter ("mf" selects "Mutual Fund", "etf" selects "ETF", "all"
selects every type). -/
def claimFundKeep (fund : Fund) (searchTerm : String) (filter : FundFilter) : Bool :=
  jsIncludes (jsToLower fund.name) (jsToLower searchTerm) &&
  (match filter with
   | .all => true
   | .mf => fund.type == "Mutual Fund"
   | .etf => fund.type == "ETF")

/-- The component's own last-resort fund list (`fetchFunds` catch branch
and empty-data branch use the same two records). -/
def componentFallbackFunds : List JVal := [hdfcFundJson, niftyFundJson]

/-- The server-fallback detection in `fetchFunds`: five entries whose
first two names are the canned ones. -/
def serverFallbackCond (data : List JVal) : Bool :=
  data.length == 5 &&
    (match jget (jIdx data 0) "name" with | some (.str s) => s == "HDFC Top 100 Fund" | _ => false) &&
    (match jget (jIdx data 1) "name" with | some (.str s) => s == "Nifty BeES" | _ => false)

/-- The `fetchFunds` effect on component state, as a function of the value
`api.getAllFunds()` resolved with: the funds displayed and the `error`
banner (a rejection falls to the catch branch). -/
def fetchFundsState (result : Except HttpErr JVal) : List JVal × Option String :=
  match result with
  | .error _ => (componentFallbackFunds, some "Failed to load fund data. Using fallback data.")
  | .ok response =>
    if jTruthy response &&
        (match jget response "status" with | some (.str s) => s == "success" | _ => false) &&
        (match jget response "data" with | some (.arr _) => true | _ => false) then
      match jget response "data" with
      | some (.arr data) =>
        if data.length == 0 then
          (componentFallbackFunds, some "No fund data available. Using default examples.")
        else if serverFallbackCond data then
          (data, some "Failed to load fund data. Using fallback data.")
        else
          (data, none)
      | _ => (componentFallbackFunds, some "Failed to load fund data. Using fallback data.")
    else
      (componentFallbackFunds, some "Failed to load fund data. Using fallback data.")

/-! ### `generateDummyHistoricalData` (market dashboard page)

Dates are modelled as integer day numbers (`today - i` stands for the ISO
date `i` days before today); `Math.random()` is the stream `r`, drawn once
per loop iteration. -/

structure PricePoint where
  date : ℤ
  price : ℚ

/-- The loop of `generateDummyHistoricalData`: `steps` iterations remain,
`j` iterations are done (so the loop index is `i = 30 - j`), and `current`
is the running `currentPrice`. -/
def genDummyGo (basePrice : ℚ) (today : ℤ) (r : Nat → ℚ) :
    Nat → Nat → ℚ → List PricePoint
  | 0, _, _ => []
  | steps + 1, j, current =>
    let change := (r j - 0.48) * (basePrice * 0.03)
    let current2 := current + change
    ⟨today - 30 + j, max current2 (basePrice * 0.7)⟩ ::
      genDummyGo basePrice today r steps (j + 1) current2

/-- `generateDummyHistoricalData(basePrice)`: 31 points for
`i = 30, …, 0`, starting from `currentPrice = basePrice`. -/
def generateDummyHistoricalData (basePrice : ℚ) (today : ℤ) (r : Nat → ℚ) :
    List PricePoint :=
  genDummyGo basePrice today r 31 0 basePrice

/-! ### Concrete failing backends used by the witnesses -/

/-- A fixed backend error. -/
def netErr : HttpErr := ⟨"network error"⟩

/-- A backend that rejects every request. -/
def failingHttp : Http := fun _ => Except.error netErr

/-! ### Helper lemmas -/

theorem str_data_append (s t : String) : (s ++ t).data = s.data ++ t.data := rfl

/-- The two URLs `getStockInfo` can request are distinct for every symbol
(they differ at character index 26, `s` versus `f`). -/
theorem stocksUrl_ne_searchUrl (sym : String) :
    API_BASE_URL ++ "/stocks/" ++ sym ≠ API_BASE_URL ++ "/financial-data/search" := by
  intro h
  have h2 : (API_BASE_URL ++ "/stocks/" ++ sym).data[26]? =
      (API_BASE_URL ++ "/financial-data/search").data[26]? := by rw [h]
  rw [str_data_append, List.getElem?_append_left (by decide)] at h2
  exact absurd h2 (by decide)

/-- C1 counterexample: with a rejecting backend, `api.getFundInfo` rejects
with the backend error instead of resolving with substitute data. -/
theorem c1_counterexample :
    (getFundInfo failingHttp "HDFC Top 100 Fund").1 = Except.error netErr := rfl

/-- C1 (amended): only `getStockInfo` and `getAllFunds` substitute locally
generated data on failure and always resolve; every other method of the
`api` object (`chat.query`, the four `news` methods, `getFundInfo`,
`getFundHoldings`, `getETFInfo`, `searchFinancialData`) propagates the
backend error to its caller. -/
theorem c1_amended (http : Http) (r : Nat → ℚ) (e : HttpErr)
    (sym query sid ename scheme etfSymbol body : String) (limit days : Nat) :
    (∃ v, (getStockInfo http r sym).1 = Except.ok v)
    ∧ (∃ v, (getAllFunds http).1 = Except.ok v)
    ∧ (http (API_BASE_URL ++ "/chat/query") = Except.error e →
        (chatQuery http query sid).1 = Except.error e)
    ∧ (http (API_BASE_URL ++ "/news/recent?limit=" ++ toString limit) = Except.error e →
        (newsGetRecent http limit).1 = Except.error e)
    ∧ (http (API_BASE_URL ++ "/news/entity/" ++ ename ++ "?days=" ++ toString days) = Except.error e →
        (newsGetByEntity http ename days).1 = Except.error e)
    ∧ (http (API_BASE_URL ++ "/news/search") = Except.error e →
        (newsSearch http body).1 = Except.error e)
    ∧ (http (API_BASE_URL ++ "/news/refresh") = Except.error e →
        (newsRefresh http).1 = Except.error e)
    ∧ (http (API_BASE_URL ++ "/funds/" ++ scheme) = Except.error e →
        (getFundInfo http scheme).1 = Except.error e)
    ∧ (http (API_BASE_URL ++ "/funds/" ++ scheme ++ "/holdings") = Except.error e →
        (getFundHoldings http scheme).1 = Except.error e)
    ∧ (http (API_BASE_URL ++ "/etfs/" ++ etfSymbol) = Except.error e →
        (getETFInfo http etfSymbol).1 = Except.error e)
    ∧ (http (API_BASE_URL ++ "/financial-data/search") = Except.error e →
        (searchFinancialData http body).1 = Except.error e) := by
  refine ⟨?_, ?_, fun h => h, fun h => h, fun h => h, fun h => h, fun h => h,
    fun h => h, fun h => h, fun h => h, fun h => h⟩
  · simp only [getStockInfo]
    split
    · exact ⟨_, rfl⟩
    · split
      · split
        · exact ⟨_, rfl⟩
        · exact ⟨_, rfl⟩
      · exact ⟨_, rfl⟩
  · simp only [getAllFunds]
    split
    · split
      · exact ⟨_, rfl⟩
      · exact ⟨_, rfl⟩
    · exact ⟨_, rfl⟩

/-- C1 amended, witnessed at the always-failing backend. -/
theorem c1_amended_witness :
    (∃ v, (getStockInfo failingHttp (fun _ => 1/2) "TCS").1 = Except.ok v)
    ∧ (∃ v, (getAllFunds failingHttp).1 = Except.ok v)
    ∧ (chatQuery failingHttp "hello" "default").1 = Except.error netErr
    ∧ (newsGetRecent failingHttp 20).1 = Except.error netErr
    ∧ (newsGetByEntity failingHttp "TCS" 30).1 = Except.error netErr
    ∧ (newsSearch failingHttp "TCS").1 = Except.error netErr
    ∧ (newsRefresh failingHttp).1 = Except.error netErr
    ∧ (getFundInfo failingHttp "Nifty BeES").1 = Except.error netErr
    ∧ (getFundHoldings failingHttp "Nifty BeES").1 = Except.error netErr
    ∧ (getETFInfo failingHttp "NIFTYBEES").1 = Except.error netErr
    ∧ (searchFinancialData failingHttp "TCS").1 = Except.error netErr := by
  have h := c1_amended failingHttp (fun _ => 1/2) netErr "TCS" "hello" "default"
    "TCS" "Nifty BeES" "NIFTYBEES" "TCS" 20 30
  exact ⟨h.1, h.2.1, h.2.2.1 rfl, h.2.2.2.1 rfl, h.2.2.2.2.1 rfl, h.2.2.2.2.2.1 rfl,
    h.2.2.2.2.2.2.1 rfl, h.2.2.2.2.2.2.2.1 rfl, h.2.2.2.2.2.2.2.2.1 rfl,
    h.2.2.2.2.2.2.2.2.2.1 rfl, h.2.2.2.2.2.2.2.2.2.2 rfl⟩

/-- C7: within a single invocation of any `api` method, and for every
backend behaviour, the list of requested endpoint URLs has no duplicates:
no failed request is ever re-issued to the same endpoint. -/
theorem c7_no_retry (http : Http) (r : Nat → ℚ)
    (sym query sid ename scheme etfSymbol body : String) (limit days : Nat) :
    (chatQuery http query sid).2.Nodup
    ∧ (newsGetRecent http limit).2.Nodup
    ∧ (newsGetByEntity http ename days).2.Nodup
    ∧ (newsSearch http body).2.Nodup
    ∧ (newsRefresh http).2.Nodup
    ∧ (getStockInfo http r sym).2.Nodup
    ∧ (getFundInfo http scheme).2.Nodup
    ∧ (getAllFunds http).2.Nodup
    ∧ (getFundHoldings http scheme).2.Nodup
    ∧ (getETFInfo http etfSymbol).2.Nodup
    ∧ (searchFinancialData http body).2.Nodup := by
  refine ⟨by simp [chatQuery], by simp [newsGetRecent], by simp [newsGetByEntity],
    by simp [newsSearch], by simp [newsRefresh], ?_, by simp [getFundInfo], ?_,
    by simp [getFundHoldings], by simp [getETFInfo], by simp [searchFinancialData]⟩
  · simp only [getStockInfo]
    split
    · simp
    · have hne := stocksUrl_ne_searchUrl sym
      split
      · split <;> simp [hne]
      · simp [hne]
  · simp only [getAllFunds]
    split
    · split <;> simp
    · simp

/-- First-match over a rule list is `some` exactly when some guard fires. -/
theorem findRule_isSome_eq_any (rules : List SpecRule) (q : String) :
    ((rules.find? (fun rule => rule.guard q)).map SpecRule.answer).isSome =
      rules.any (fun rule => rule.guard q) := by
  induction rules with
  | nil => rfl
  | cons rule rest ih =>
    simp only [List.find?, List.any]
    cases h : rule.guard q <;> simp [h, ih]

/-- C2: `processSpecificQuery` returns a pre-written paragraph exactly when
one of the hardcoded patterns (the guards of `specificQueryRules`, each a
combination of case-insensitive substring checks) matches the query, and
`none` otherwise; every non-`none` result belongs to the fixed finite set
`cannedAnswers`.  The function is pure, so the result depends only on the
query text. -/
theorem c2_processSpecificQuery_canned (q : String) :
    ((processSpecificQuery q).isSome = specificQueryRules.any (fun rule => rule.guard q))
    ∧ (∀ s, processSpecificQuery q = some s → s ∈ cannedAnswers) := by
  constructor
  · exact findRule_isSome_eq_any specificQueryRules q
  · intro s hs
    unfold processSpecificQuery at hs
    obtain ⟨rule, hfind, hans⟩ := Option.map_eq_some'.mp hs
    exact hans ▸ List.mem_map_of_mem SpecRule.answer (List.mem_of_find?_eq_some hfind)

/-- C2, witnessed: the CASA-ratio pattern fires and yields a canned string. -/
theorem c2_witness : ansCasa ∈ cannedAnswers :=
  (c2_processSpecificQuery_canned "casa ratio").2 ansCasa (by decide)

/-- C3 counterexample: "ZOMATO price" names a stock absent from the
hardcoded price table, yet two invocations that see entirely different
`Math.random()` streams return the identical figure — the price is the
deterministic value `(("Z".charCodeAt(0)) * 100 + 6 * 1000) % 50000 + 500
= 15500`, not a random one. -/
theorem c3_counterexample :
    searchWebForInfo "ZOMATO price" (fun _ => 0) =
      "ZOMATO is currently trading at $15,500 per share."
    ∧ searchWebForInfo "ZOMATO price" (fun _ => 9/10) =
      "ZOMATO is currently trading at $15,500 per share." := by
  exact ⟨by decide, by decide⟩

/-- C3 (amended): whenever the stock-price block of `searchWebForInfo`
produces the answer — in particular for a stock-price query naming a stock
absent from the hardcoded table, where the figure is derived from the
extracted name's first character code and length — the result is
independent of the `Math.random()` stream: two invocations on the same
query string always yield the same figure. -/
theorem c3_amended (q : String) (r1 r2 : Nat → ℚ)
    (h : (priceAnswer q (kwOf q)).isSome = true) :
    searchWebForInfo q r1 = searchWebForInfo q r2 := by
  obtain ⟨ans, hans⟩ := Option.isSome_iff_exists.mp h
  simp only [searchWebForInfo, hans]

/-- C3 amended, witnessed on the same table-absent query. -/
theorem c3_amended_witness :
    searchWebForInfo "ZOMATO price" (fun _ => 1/3) =
      searchWebForInfo "ZOMATO price" (fun _ => 2/3) :=
  c3_amended "ZOMATO price" (fun _ => 1/3) (fun _ => 2/3) (by decide)

/-- C4: in the submit handler, a non-null canned answer is appended
verbatim with no other source consulted; `searchWebForInfo` runs only
when no canned pattern matched and the chat API failed or returned an
empty answer. -/
theorem c4_handleSubmit_sources (env : ChatEnv) (inputValue : String) :
    (∀ a, jsTrim inputValue ≠ "" → processSpecificQuery inputValue = some a →
      handleSubmit env inputValue = some (a, []))
    ∧ (∀ content trace, handleSubmit env inputValue = some (content, trace) →
        ChatSource.webSearch ∈ trace →
        processSpecificQuery inputValue = none ∧
          (env.chatAnswer = Except.error () ∨ env.chatAnswer = Except.ok "")) := by
  constructor
  · intro a ht hp
    simp only [handleSubmit, if_neg ht, hp]
  · intro content trace h hw
    unfold handleSubmit at h
    split at h
    · exact absurd h (by simp)
    · split at h
      · rw [Option.some.injEq, Prod.mk.injEq] at h
        rcases h with ⟨-, htr⟩
        rw [← htr] at hw
        simp at hw
      · rename_i heq
        refine ⟨heq, ?_⟩
        split at h
        · split at h
          · rw [Option.some.injEq, Prod.mk.injEq] at h
            rcases h with ⟨-, htr⟩
            rw [← htr] at hw
            simp at hw
          · split at h
            · rename_i answer hchat
              split at h
              · rename_i hempty
                exact Or.inr (hempty ▸ hchat)
              · rw [Option.some.injEq, Prod.mk.injEq] at h
                rcases h with ⟨-, htr⟩
                rw [← htr] at hw
                simp at hw
            · rename_i e hchat
              exact Or.inl hchat
        · split at h
          · rename_i answer hchat
            split at h
            · rename_i hempty
              exact Or.inr (hempty ▸ hchat)
            · rw [Option.some.injEq, Prod.mk.injEq] at h
              rcases h with ⟨-, htr⟩
              rw [← htr] at hw
              simp at hw
          · rename_i e hchat
            exact Or.inl hchat

/-- An environment whose chat API rejects (its values are irrelevant for
the canned-answer path). -/
def envChatFails : ChatEnv := ⟨none, Except.error (), fun _ => 0⟩

/-- C4, witnessed: "apple" matches a canned pattern, is answered verbatim
and consults no source. -/
theorem c4_witness : handleSubmit envChatFails "apple" = some (ansApple, []) :=
  (c4_handleSubmit_sources envChatFails "apple").1 ansApple (by decide) (by decide)

/-- The `GET /funds` call failed, or its payload is not a truthy object
with `status === "success"` — the condition under which `getAllFunds`
falls back. -/
def fundsRequestBad (http : Http) : Prop :=
  ∀ payload, http (API_BASE_URL ++ "/funds") = Except.ok payload →
    ¬(jTruthy payload = true ∧
      (match jget payload "status" with
       | some (JVal.str s) => s == "success"
       | _ => false) = true)

/-- On any failure, `getAllFunds` resolves with the hardcoded two-fund
payload. -/
theorem getAllFunds_fallback (http : Http) (h : fundsRequestBad http) :
    (getAllFunds http).1 = Except.ok fallbackFundsJson := by
  cases hh : http (API_BASE_URL ++ "/funds") with
  | error e => simp [getAllFunds, hh]
  | ok payload =>
    have hb : ¬((jTruthy payload &&
        (match jget payload "status" with
         | some (JVal.str s) => s == "success"
         | _ => false)) = true) := by
      intro hand
      exact h payload hh (Bool.and_eq_true .. ▸ hand)
    simp [getAllFunds, hh, hb]

/-- C5: when the `/funds` request throws or its payload lacks
`status === "success"`, `getAllFunds` resolves with `status: "success"`
and exactly the two hardcoded funds; consequently every value it resolves
with carries `status: "success"`. -/
theorem c5_getAllFunds_always_success (http : Http) :
    (fundsRequestBad http →
      (getAllFunds http).1 = Except.ok fallbackFundsJson
      ∧ jget fallbackFundsJson "data" = some (JVal.arr [hdfcFundJson, niftyFundJson]))
    ∧ (∀ v, (getAllFunds http).1 = Except.ok v →
        jget v "status" = some (JVal.str "success")) := by
  constructor
  · intro h
    exact ⟨getAllFunds_fallback http h, rfl⟩
  · intro v hv
    cases hh : http (API_BASE_URL ++ "/funds") with
    | error e =>
      simp only [getAllFunds, hh] at hv
      cases hv
      rfl
    | ok payload =>
      simp only [getAllFunds, hh] at hv
      by_cases hc : (jTruthy payload &&
          (match jget payload "status" with
           | some (JVal.str s) => s == "success"
           | _ => false)) = true
      · rw [if_pos hc] at hv
        cases hv
        obtain ⟨-, hm⟩ := Bool.and_eq_true .. ▸ hc
        revert hm
        cases hst : jget v "status" with
        | none => simp
        | some jv =>
          cases jv <;> simp
      · rw [if_neg hc] at hv
        cases hv
        rfl

/-- C5, witnessed at the always-failing backend. -/
theorem c5_witness :
    (getAllFunds failingHttp).1 = Except.ok fallbackFundsJson
    ∧ jget fallbackFundsJson "status" = some (JVal.str "success") := by
  have h := c5_getAllFunds_always_success failingHttp
  have h1 := h.1 (fun _payload hp => Except.noConfusion hp)
  exact ⟨h1.1, h.2 fallbackFundsJson h1.1⟩

/-- C6: when the direct `/stocks` lookup and the `/financial-data/search`
fallback both fail, `getStockInfo` resolves with mock data whose symbol
and name are the uppercased input, whose price is `Math.random() * 5000 +
500` — at least 500 and below 5500 — and whose sector is "Unknown". -/
theorem c6_mock_stock (http : Http) (r : Nat → ℚ) (symbol : String)
    (e1 e2 : HttpErr)
    (h1 : http (API_BASE_URL ++ "/stocks/" ++ symbol) = Except.error e1)
    (h2 : http (API_BASE_URL ++ "/financial-data/search") = Except.error e2)
    (hr0 : 0 ≤ r 0) (hr1 : r 0 < 1) :
    (getStockInfo http r symbol).1 = Except.ok (mockStockJson symbol r)
    ∧ jget (mockStockJson symbol r) "symbol" = some (JVal.str (jsToUpper symbol))
    ∧ jget (mockStockJson symbol r) "name" = some (JVal.str (jsToUpper symbol))
    ∧ jget (mockStockJson symbol r) "price" = some (JVal.num (r 0 * 5000 + 500))
    ∧ 500 ≤ r 0 * 5000 + 500 ∧ r 0 * 5000 + 500 < 5500
    ∧ jget (mockStockJson symbol r) "sector" = some (JVal.str "Unknown") := by
  refine ⟨?_, rfl, rfl, rfl, ?_, ?_, rfl⟩
  · simp only [getStockInfo, h1, h2]
  · nlinarith
  · nlinarith

/-- C6, witnessed at the always-failing backend with the constant stream
`1/2`. -/
theorem c6_witness :
    (getStockInfo failingHttp (fun _ => 1/2) "tcs").1 =
      Except.ok (mockStockJson "tcs" (fun _ => 1/2))
    ∧ jget (mockStockJson "tcs" (fun _ => 1/2)) "symbol" = some (JVal.str (jsToUpper "tcs"))
    ∧ jget (mockStockJson "tcs" (fun _ => 1/2)) "name" = some (JVal.str (jsToUpper "tcs"))
    ∧ jget (mockStockJson "tcs" (fun _ => 1/2)) "price" =
        some (JVal.num ((1 : ℚ)/2 * 5000 + 500))
    ∧ 500 ≤ (1 : ℚ)/2 * 5000 + 500 ∧ (1 : ℚ)/2 * 5000 + 500 < 5500
    ∧ jget (mockStockJson "tcs" (fun _ => 1/2)) "sector" = some (JVal.str "Unknown") :=
  c6_mock_stock failingHttp (fun _ => 1/2) "tcs" netErr netErr rfl rfl
    (by norm_num) (by norm_num)

/-- C10: whenever `getAllFunds` resolves with its internal two-fund
fallback, the Funds component's server-fallback detector (length 5 with
the two canned leading names) is false — the component displays the
canned funds with no error banner, indistinguishable from real data. -/
theorem c10_fallback_undetected (http : Http) (h : fundsRequestBad http) :
    fetchFundsState (getAllFunds http).1 = ([hdfcFundJson, niftyFundJson], none)
    ∧ serverFallbackCond [hdfcFundJson, niftyFundJson] = false := by
  rw [getAllFunds_fallback http h]
  exact ⟨rfl, rfl⟩

/-- C10, witnessed at the always-failing backend. -/
theorem c10_witness :
    fetchFundsState (getAllFunds failingHttp).1 = ([hdfcFundJson, niftyFundJson], none) :=
  (c10_fallback_undetected failingHttp (fun _payload hp => Except.noConfusion hp)).1

/-- C8: `filteredFunds` keeps exactly the funds whose name contains the
search term case-insensitively and whose type matches the active filter
("mf" → "Mutual Fund", "etf" → "ETF", "all" → every type), in their
original order (it is a sublist of the input). -/
theorem c8_filteredFunds_spec (funds : List Fund) (searchTerm : String)
    (filter : FundFilter) :
    filteredFunds funds searchTerm filter =
      funds.filter (fun fund => claimFundKeep fund searchTerm filter)
    ∧ (filteredFunds funds searchTerm filter).Sublist funds := by
  have hpred : (fun fund : Fund =>
      jsIncludes (jsToLower fund.name) (jsToLower searchTerm) &&
      (filter == FundFilter.all
        || (filter == FundFilter.mf && fund.type == "Mutual Fund")
        || (filter == FundFilter.etf && fund.type == "ETF"))) =
      (fun fund => claimFundKeep fund searchTerm filter) := by
    funext fund
    cases filter
    · simp [claimFundKeep, show (FundFilter.all == FundFilter.all) = true from rfl]
    · simp [claimFundKeep, show (FundFilter.mf == FundFilter.all) = false from rfl,
        show (FundFilter.mf == FundFilter.mf) = true from rfl,
        show (FundFilter.mf == FundFilter.etf) = false from rfl]
    · simp [claimFundKeep, show (FundFilter.etf == FundFilter.all) = false from rfl,
        show (FundFilter.etf == FundFilter.mf) = false from rfl,
        show (FundFilter.etf == FundFilter.etf) = true from rfl]
  constructor
  · rw [filteredFunds, hpred]
  · exact List.filter_sublist _

/-- Each point of `genDummyGo` is clamped to at least `0.7 * basePrice`. -/
theorem genDummyGo_price_lb (bp : ℚ) (today : ℤ) (r : Nat → ℚ) :
    ∀ (steps j : Nat) (c : ℚ) (p : PricePoint),
      p ∈ genDummyGo bp today r steps j c → bp * 0.7 ≤ p.price := by
  intro steps
  induction steps with
  | zero => intro j c p hp; simp [genDummyGo] at hp
  | succ k ih =>
    intro j c p hp
    simp only [genDummyGo, List.mem_cons] at hp
    rcases hp with h | h
    · rw [h]
      exact le_max_right _ _
    · exact ih (j + 1) _ p h

theorem genDummyGo_length (bp : ℚ) (today : ℤ) (r : Nat → ℚ) :
    ∀ (steps j : Nat) (c : ℚ), (genDummyGo bp today r steps j c).length = steps := by
  intro steps
  induction steps with
  | zero => intro j c; rfl
  | succ k ih => intro j c; simp [genDummyGo, ih]

/-- The dates of `genDummyGo` are consecutive day numbers. -/
theorem genDummyGo_map_date (bp : ℚ) (today : ℤ) (r : Nat → ℚ) :
    ∀ (steps j : Nat) (c : ℚ),
      (genDummyGo bp today r steps j c).map PricePoint.date =
        (List.range steps).map (fun m => today - 30 + ((j + m : ℕ) : ℤ)) := by
  intro steps
  induction steps with
  | zero => intro j c; rfl
  | succ k ih =>
    intro j c
    rw [List.range_succ_eq_map]
    simp only [genDummyGo, List.map_cons, List.map_map, ih (j + 1)]
    refine List.cons_eq_cons.mpr ⟨by push_cast; ring, ?_⟩
    refine List.map_congr_left fun m hm => ?_
    simp only [Function.comp_apply]
    push_cast
    ring

/-- C9: for every positive `basePrice`, `generateDummyHistoricalData`
returns exactly 31 points whose dates are the consecutive days
`today - 30, …, today` (chronological order ending at today), and every
point's price is at least `0.7 * basePrice`. -/
theorem c9_generateDummyHistoricalData_spec (basePrice : ℚ) (_hpos : 0 < basePrice)
    (today : ℤ) (r : Nat → ℚ) :
    (generateDummyHistoricalData basePrice today r).length = 31
    ∧ (generateDummyHistoricalData basePrice today r).map PricePoint.date =
        (List.range 31).map (fun m : ℕ => today - 30 + (m : ℤ))
    ∧ ∀ p ∈ generateDummyHistoricalData basePrice today r,
        basePrice * 0.7 ≤ p.price := by
  refine ⟨genDummyGo_length basePrice today r 31 0 basePrice, ?_,
    fun p hp => genDummyGo_price_lb basePrice today r 31 0 basePrice p hp⟩
  rw [generateDummyHistoricalData, genDummyGo_map_date basePrice today r 31 0 basePrice]
  refine List.map_congr_left fun m hm => ?_
  push_cast
  ring

/-- C9, witnessed at `basePrice = 100`. -/
theorem c9_witness :
    (generateDummyHistoricalData 100 0 (fun _ => 0)).length = 31 :=
  (c9_generateDummyHistoricalData_spec 100 (by norm_num) 0 (fun _ => 0)).1
